import Mathlib

/-!
Verification development for the v5 repository (volkovasystems/v5).

The development shallowly embeds the coordination core of the repository:

* `src/src/utils/goal_parser.py` — the structured-goal parser and the
  keyword-overlap alignment scorer (`GoalParser.parse`,
  `GoalParser.validate_goal_alignment`, `check_request_alignment`);
* `src/src/utils/messaging.py` — the message bus (`V5MessageBus`), the
  role router (`WindowMessenger`), the offline fallback
  (`OfflineMessenger`) and the factory (`create_messenger`);
* `src/src/core/v5_system.py` and `src/src/core/v5_tool.py` — the
  process supervisor (`launch_windows`, `stop_tool`,
  `force_kill_v5_processes`, the `status` command).

Python text is modelled as `List Char` (ASCII-faithful); machine effects
(the broker, OS signals, the file system) are modelled as explicit state
records plus oracle functions describing the outcome of each external
call.  Rational numbers stand in for Python floats: every float produced
by the scored code is a ratio of two small naturals compared against the
literals 0.3 / 0.5 / 0.9, and for such values float comparison agrees
with exact rational comparison.
-/

/-- Python text is modelled as a list of characters. -/
abbrev Str := List Char

/-- Python `str.strip()`: remove whitespace from both ends. -/
def pyStrip (s : Str) : Str :=
  ((s.dropWhile Char.isWhitespace).reverse.dropWhile Char.isWhitespace).reverse

/-- Python `str.lower()` (ASCII model). -/
def pyLower (s : Str) : Str := s.map Char.toLower

/-- Split a text on a separator character; models Python `str.split(c)`
(as used for `'\n'`). -/
def splitCh (c : Char) : Str → List Str
  | [] => [[]]
  | a :: rest =>
    if a = c then [] :: splitCh c rest
    else
      match splitCh c rest with
      | [] => [[a]]
      | l :: ls => (a :: l) :: ls

/-- Split at the first occurrence of a character, dropping it; models
Python `line.split(c, 1)` on a line known to contain `c`. -/
def splitFirst (c : Char) : Str → Str × Str
  | [] => ([], [])
  | a :: rest =>
    if a = c then ([], rest)
    else
      let p := splitFirst c rest
      (a :: p.1, p.2)

/-- Python `value[1:-1]` applied when the text starts and ends with a
double quote (`value.startswith('"') and value.endswith('"')`); models
the quote-removal in the manual YAML parser. -/
def pyUnquote (s : Str) : Str :=
  if s.head? = some '"' ∧ s.getLast? = some '"' then (s.drop 1).dropLast else s

/-- Bool substring test: `w` occurs contiguously in `s`; models the
Python operator `word in excluded_text`. -/
def occursIn (w s : Str) : Bool :=
  s.tails.any (fun t => w.isPrefixOf t)

/-- Word characters for the ASCII model of the regex `\b` boundary:
`[A-Za-z0-9_]`. -/
def isWordChar (c : Char) : Bool := c.isAlphanum || c = '_'

/-- Accumulator pass splitting a text into its maximal runs of word
characters (`\w+` in the ASCII model); `cur` holds the reversed current
run. -/
def wordRunsAux (cur : Str) : Str → List Str
  | [] => if cur = [] then [] else [cur.reverse]
  | c :: rest =>
    if isWordChar c then wordRunsAux (c :: cur) rest
    else if cur = [] then wordRunsAux [] rest
    else cur.reverse :: wordRunsAux [] rest

/-- Maximal runs of word characters of a text. -/
def wordRuns (s : Str) : List Str := wordRunsAux [] s

/-- Tokens of `re.findall(r'\b[a-zA-Z]+\b', text)` in the ASCII model: a
match is a maximal run of word characters made up purely of letters
(a run touching a digit or underscore has no `\b` boundary and is not
matched). -/
def extractTokens (s : Str) : List Str :=
  (wordRuns s).filter (fun r => r.all Char.isAlpha)

/-- `GoalParser._extract_keywords` (src/src/utils/goal_parser.py:243):
words of the text longer than 3 characters. -/
def extractKeywords (s : Str) : List Str :=
  (extractTokens s).filter (fun w => w.length > 3)

/-- Dynamic value produced by `GoalParser._manual_yaml_parse`
(src/src/utils/goal_parser.py:123): a scalar string, a flat list of
strings, or a nested mapping.  Mapping keys are `Option Str` because the
list branch can insert under the Python key `None` (when a `- ` item
appears before any `key:` line). -/
inductive YamlVal where
  | s (v : Str)
  | list (items : List Str)
  | dict (entries : List (Option Str × YamlVal))

/-- A parsed mapping: association list in insertion order, modelling a
Python dict. -/
abbrev YDict := List (Option Str × YamlVal)

/-- Dict lookup, models Python `d.get(k)` / `k in d`. -/
def ylookup (k : Option Str) : YDict → Option YamlVal
  | [] => none
  | (k', v) :: rest => if k' = k then some v else ylookup k rest

/-- Dict write `d[k] = v`: replace in place if the key exists (Python
dicts keep the original position), else append. -/
def yupdate (k : Option Str) (v : YamlVal) : YDict → YDict
  | [] => [(k, v)]
  | (k', v') :: rest => if k' = k then (k, v) :: rest else (k', v') :: yupdate k v rest

/-- Write through a path of nested dicts: models the Python aliasing of
`current_dict` into the nested dict reached by descending from `result`
through `path`.  Every interior key on the path was created as a dict by
the parser and is only ever overwritten after the path is reset, so the
fallthrough branch is unreachable. -/
def yupdateAt (path : List Str) (k : Option Str) (v : YamlVal) (d : YDict) : YDict :=
  match path with
  | [] => yupdate k v d
  | p :: rest =>
    match ylookup (some p) d with
    | some (.dict sub) => yupdate (some p) (.dict (yupdateAt rest k v sub)) d
    | _ => d

/-- Mutable state of the `_manual_yaml_parse` loop: `root` is `result`,
`path` is the chain of keys from `result` to the aliased `current_dict`,
and `currentKey` is `current_key` (`none` models Python `None`). -/
structure MState where
  root : YDict
  path : List Str
  currentKey : Option Str

/-- One iteration of the `for line in lines` loop of
`GoalParser._manual_yaml_parse` (src/src/utils/goal_parser.py:131-177).
Returns `none` when the Python line would raise (the `- ` branch calls
`.append` on a value that is not a list), which the caller turns into a
parse failure. -/
def manualStep (st : MState) (line : Str) : Option MState :=
  let stripped := pyStrip line
  if stripped = [] ∨ stripped.head? = some '#' then some st
  else
    let indent := (line.takeWhile Char.isWhitespace).length
    if line.contains ':' then
      let kv := splitFirst ':' line
      let key := pyStrip kv.1
      let value := pyStrip kv.2
      let st := if indent = 0 then { st with path := [] } else st
      if value ≠ [] then
        some { st with root := yupdateAt st.path (some key) (.s (pyUnquote value)) st.root }
      else
        some { st with root := yupdateAt st.path (some key) (.dict []) st.root,
                       path := st.path ++ [key],
                       currentKey := some key }
    else if stripped.take 2 = "- ".toList then
      let item := pyUnquote (stripped.drop 2)
      match ylookup st.currentKey st.root with
      | none => some { st with root := yupdate st.currentKey (.list [item]) st.root }
      | some (.list xs) => some { st with root := yupdate st.currentKey (.list (xs ++ [item])) st.root }
      | some _ => none
    else if stripped.head? = some '|' then
      if st.currentKey ≠ none ∧ st.currentKey ≠ some [] then
        some { st with root := yupdateAt st.path st.currentKey (.s (pyStrip (stripped.drop 1))) st.root }
      else some st
    else some st

/-- `GoalParser._manual_yaml_parse` over a list of lines; `none` models
an exception escaping the loop (caught by `parse`). -/
def manualYamlParse (lines : List Str) : Option YDict :=
  (lines.foldlM manualStep ⟨[], [], none⟩).map MState.root

/-- State of the `_clean_content` loop: whether the cursor is inside the
example block. -/
def cleanStep (acc : Bool × List Str) (line : Str) : Bool × List Str :=
  let stripped := pyStrip line
  if "# Example Configuration:".toList.isPrefixOf stripped then (true, acc.2)
  else if acc.1 ∧ "# Metadata".toList.isPrefixOf stripped then (false, acc.2 ++ [line])
  else if acc.1 then acc
  else if stripped.head? = some '#' ∧ ¬ line.contains ':' then acc
  else (acc.1, acc.2 ++ [line])

/-- `GoalParser._clean_content` (src/src/utils/goal_parser.py:79):
drop the example block delimited by the two sentinel comment markers and
every pure comment line (a `#` line without a colon). -/
def cleanLines (lines : List Str) : List Str :=
  (lines.foldl cleanStep (false, [])).2

/-- The record built by `GoalParser.parse`
(src/src/utils/goal_parser.py:55-69).  Python is dynamically typed, so
each field holds whatever dynamic value the parsed mapping supplied; the
three metadata entries are inlined as separate fields. -/
structure ParsedGoal where
  primary : YamlVal
  description : YamlVal
  success_criteria : YamlVal
  constraints : YamlVal
  stakeholders : YamlVal
  scope : YamlVal
  created : YamlVal
  last_updated : YamlVal
  version : YamlVal

/-- Field extraction of `GoalParser.parse` once `parsed_data` is known
to be truthy: `gd` is `parsed_data.get('goal', {})` (already checked to
be a dict) and `d` the whole mapping. -/
def buildParsedGoal (d gd : YDict) : ParsedGoal where
  primary := (ylookup (some "primary".toList) gd).getD (.s [])
  description := (ylookup (some "description".toList) gd).getD (.s [])
  success_criteria := (ylookup (some "success_criteria".toList) d).getD (.list [])
  constraints := (ylookup (some "constraints".toList) d).getD (.dict [])
  stakeholders := (ylookup (some "stakeholders".toList) d).getD (.dict [])
  scope := (ylookup (some "scope".toList) d).getD (.dict [])
  created := (ylookup (some "created".toList) d).getD (.s [])
  last_updated := (ylookup (some "last_updated".toList) d).getD (.s [])
  version := (ylookup (some "version".toList) d).getD (.s "1.0".toList)

/-- `GoalParser.parse` (src/src/utils/goal_parser.py:40-77) on the
manual parsing strategy (the branch taken when PyYAML is unavailable or
standard YAML parsing fails; for the inputs decided in this development
both strategies produce the same mapping).  The argument is the goal
file content, `none` when the file does not exist.  Result `none` covers
every `return None` of the source: missing file, an exception during
parsing or field extraction (`.get` on a non-dict `goal` value raises
`AttributeError`, caught by the enclosing `try`), and a falsy (empty)
parsed mapping. -/
def parseGoal (content : Option Str) : Option ParsedGoal :=
  match content with
  | none => none
  | some text =>
    match manualYamlParse (cleanLines (splitCh '\n' text)) with
    | none => none
    | some d =>
      if d.isEmpty then none
      else
        match ylookup (some "goal".toList) d with
        | some (.s _) => none
        | some (.list _) => none
        | some (.dict gd) => some (buildParsedGoal d gd)
        | none => some (buildParsedGoal d [])

/-- The typed record declared by the `RepositoryGoal` dataclass
(src/src/utils/goal_parser.py:20-29): all fields carry the annotated
string types.  The alignment claims quantify over goals of this shape. -/
structure RepositoryGoal where
  primary : Str
  description : Str
  success_criteria : List Str
  constraints : List (Str × Str)
  stakeholders : List (Str × Str)
  scope : List (Str × Str)
  metadata : List (Str × Str)

/-- Assoc-list lookup with a default; models Python `d.get(k, default)`
on a string-typed dict. -/
def lookupD (d : List (Str × Str)) (k : Str) (dflt : Str) : Str :=
  match d with
  | [] => dflt
  | (k', v) :: rest => if k' = k then v else lookupD rest k dflt

/-- The `scope.get('excluded', '')` access used by
`get_summary_for_ai` and `validate_goal_alignment`. -/
def scopeExcluded (g : RepositoryGoal) : Str := lookupD g.scope "excluded".toList []

/-- The stop-word set of `GoalParser.get_focus_keywords`
(src/src/utils/goal_parser.py:232-235). -/
def stopWords : List Str :=
  ["the".toList, "a".toList, "an".toList, "and".toList, "or".toList,
   "but".toList, "in".toList, "on".toList, "at".toList, "to".toList,
   "for".toList, "of".toList, "with".toList, "by".toList]

/-- Core of `GoalParser.get_focus_keywords`
(src/src/utils/goal_parser.py:216-241), abstracted over the two text
sources it reads (`parsed_goal.primary` and
`parsed_goal.constraints.values()`): extract keywords, lower-case them,
drop stop words and words of length at most 2, deduplicate
(`list(set(...))`; only the set content and its size are consumed
downstream). -/
def focusKeywordsCore (primary : Str) (constraintVals : List Str) : List Str :=
  let keywords := extractKeywords primary ++ constraintVals.flatMap extractKeywords
  ((keywords.filter (fun k => pyLower k ∉ stopWords ∧ k.length > 2)).map pyLower).dedup

/-- `GoalParser.get_focus_keywords` on a well-typed goal (the
`parsed_goal` is present in every context where the method is called by
`validate_goal_alignment`). -/
def getFocusKeywords (g : RepositoryGoal) : List Str :=
  focusKeywordsCore g.primary (g.constraints.map Prod.snd)

/-- Reason field of an alignment result.  The source stores formatted
strings; each constructor records the exact information interpolated
into the corresponding f-string of
`GoalParser.validate_goal_alignment` / `check_request_alignment`. -/
inductive Reason where
  | noGoalDefined
  | excludedScope (excludedText : Str)
  | keywordMatch (numMatches totalKeywords : Nat)
  | noGoalToCheck
deriving DecidableEq

/-- The dict returned by `GoalParser.validate_goal_alignment`.
`matchingKeywords` is `none` for the two early returns that omit the
`'matching_keywords'` key. -/
structure AlignmentResult where
  aligned : Bool
  confidence : ℚ
  reason : Reason
  matchingKeywords : Option (List Str)
deriving DecidableEq

/-- Core of `GoalParser.validate_goal_alignment`
(src/src/utils/goal_parser.py:250-287) beyond the `parsed_goal` check,
abstracted over the three goal fields it reads.  Python float division
and the float literals 0.3/0.5/0.9 are modelled as exact rationals (the
compared values are small-denominator ratios, where float and rational
comparison agree). -/
def validateCore (primary : Str) (constraintVals : List Str) (excluded : Str)
    (userRequest : Str) : AlignmentResult :=
  let focusKeywords := focusKeywordsCore primary constraintVals
  let requestWords := extractKeywords (pyLower userRequest)
  let numMatches := (focusKeywords.filter (fun k => requestWords.contains k)).length
  let totalKeywords := focusKeywords.length
  let confidence : ℚ := if totalKeywords = 0 then 1/2 else (numMatches : ℚ) / (totalKeywords : ℚ)
  let excludedText := pyLower excluded
  if excludedText ≠ [] ∧ requestWords.any (fun w => occursIn w excludedText) then
    ⟨false, 9/10, .excludedScope excludedText, none⟩
  else
    ⟨decide ((3 : ℚ)/10 < confidence), confidence, .keywordMatch numMatches totalKeywords,
     some (focusKeywords.filter (fun k => requestWords.contains k))⟩

/-- `GoalParser.validate_goal_alignment` on the parser state: `none`
models `self.parsed_goal` being unset (`if not self.parsed_goal`). -/
def validateGoalAlignment (goal : Option RepositoryGoal) (userRequest : Str) :
    AlignmentResult :=
  match goal with
  | none => ⟨true, 0, .noGoalDefined, none⟩
  | some g =>
    validateCore g.primary (g.constraints.map Prod.snd) (scopeExcluded g) userRequest

/-- Bridge from the dynamic record stored by `parse` to the alignment
check: extracts exactly the fields `validate_goal_alignment` reads, in
evaluation order, and returns `none` where the Python would raise
(`re.findall` on a non-string primary or constraint value,
`.values()`/`.get()`/`.lower()` on a value of the wrong shape); such an
exception escapes `validate_goal_alignment`, which has no handler. -/
def validateParsedGoalAlignment (g : ParsedGoal) (userRequest : Str) :
    Option AlignmentResult :=
  match g.primary with
  | .s prim =>
    match g.constraints with
    | .dict cs =>
      match cs.mapM (fun kv => match kv.2 with | .s v => some v | _ => none) with
      | some cvals =>
        match g.scope with
        | .dict sc =>
          match ylookup (some "excluded".toList) sc with
          | none => some (validateCore prim cvals [] userRequest)
          | some (.s ex) => some (validateCore prim cvals ex userRequest)
          | some _ => none
        | _ => none
      | none => none
    | _ => none
  | _ => none

/-- `check_request_alignment` (src/src/utils/goal_parser.py:303-309):
parse the goal file, then validate; when the parse yields no goal the
request passes with the `'No goal to check against'` result.  The outer
`Option` is `none` when `validate_goal_alignment` itself raises on a
badly-shaped goal. -/
def checkRequestAlignment (content : Option Str) (userRequest : Str) :
    Option AlignmentResult :=
  match parseGoal content with
  | some g => validateParsedGoalAlignment g userRequest
  | none => some ⟨true, 0, .noGoalToCheck, none⟩

/-- The enrichment wrapper built by `V5MessageBus.publish_message`
(src/src/utils/messaging.py:187-192): current timestamp, source window,
routing key, opaque payload (`α`). -/
structure Envelope (α : Type) where
  timestamp : Str
  sourceWindow : Option Str
  routingKey : Str
  data : α
deriving DecidableEq

/-- Observable state of a `V5MessageBus` together with the broker it
talks to: the connection flags, the list of (exchange, envelope) pairs
accepted by the broker, the consumer registry (`self.consumers` keys)
and the queue bindings declared by the listen helpers.  There is no
retry queue field because the source keeps no such structure: a dropped
message leaves the whole state unchanged. -/
structure BusState (α : Type) where
  isConnected : Bool
  hasChannel : Bool
  published : List (Str × Envelope α)
  consumers : List Str
  boundQueues : List (Str × Str × Str)
deriving DecidableEq

/-- `V5MessageBus.publish_message` (src/src/utils/messaging.py:174-212).
Oracles: `pikaAvailable` is the import-time `PIKA_AVAILABLE` flag, `now`
the timestamp `datetime.now().isoformat()`, and `publishOk` tells
whether `channel.basic_publish` succeeds (its exception is caught and
turned into `False`). -/
def publishMessage (pikaAvailable : Bool) (now : Str) (publishOk : Bool)
    (st : BusState α) (exchange routingKey : Str) (message : α)
    (windowId : Option Str) : Bool × BusState α :=
  if ¬(st.isConnected ∧ st.hasChannel) then (false, st)
  else if ¬pikaAvailable then (false, st)
  else if publishOk then
    (true, { st with published :=
      st.published ++ [(exchange, ⟨now, windowId, routingKey, message⟩)] })
  else (false, st)

/-- `V5MessageBus.subscribe_to_queue` (src/src/utils/messaging.py:214-246)
at the registration level: `subOk` tells whether `basic_consume`
succeeds.  The per-message behaviour of the installed callback is
`messageHandler` below. -/
def subscribeToQueue (subOk : Bool) (st : BusState α) (queue : Str) :
    Bool × BusState α :=
  if ¬(st.isConnected ∧ st.hasChannel) then (false, st)
  else if subOk then (true, { st with consumers := st.consumers ++ [queue] })
  else (false, st)

/-- Acknowledgement sent back to the broker by the consumer callback. -/
inductive AckAction where
  | ack
  | nack (requeue : Bool)
deriving DecidableEq

/-- The `message_handler` closure installed by
`V5MessageBus.subscribe_to_queue` (src/src/utils/messaging.py:224-232)
for one delivered message.  `parsedBody` is the result of
`json.loads(body)` (`none` when it raises), `callbackOk` whether the
registered handler returns normally; `basic_ack` is assumed not to
raise.  The result counts how many times the handler was invoked and
gives the acknowledgement action. -/
def messageHandler (parsedBody : Option α) (callbackOk : Bool) : Nat × AckAction :=
  match parsedBody with
  | none => (0, .nack false)
  | some _ => if callbackOk then (1, .ack) else (1, .nack false)

/-- `WindowMessenger.send_activity` (src/src/utils/messaging.py:294). -/
def sendActivity (windowId : Str) (activityType : Str) (data : α)
    (pikaAvailable : Bool) (now : Str) (publishOk : Bool) (st : BusState α) :
    Bool × BusState α :=
  publishMessage pikaAvailable now publishOk st "window.activities".toList
    (windowId ++ ".activity.".toList ++ activityType) data (some windowId)

/-- `WindowMessenger.send_code_change` (src/src/utils/messaging.py:303). -/
def sendCodeChange (windowId : Str) (changeType : Str) (data : α)
    (pikaAvailable : Bool) (now : Str) (publishOk : Bool) (st : BusState α) :
    Bool × BusState α :=
  publishMessage pikaAvailable now publishOk st "code.changes".toList
    (windowId ++ ".code.".toList ++ changeType) data (some windowId)

/-- `WindowMessenger.send_protocol_update` (src/src/utils/messaging.py:312):
only `window_c` may publish protocol updates; any other caller gets
`False` with a warning and no bus call. -/
def sendProtocolUpdate (windowId : Str) (updateType : Str) (data : α)
    (pikaAvailable : Bool) (now : Str) (publishOk : Bool) (st : BusState α) :
    Bool × BusState α :=
  if windowId ≠ "window_c".toList then (false, st)
  else
    publishMessage pikaAvailable now publishOk st "protocol.updates".toList
      ("protocol.".toList ++ updateType) data (some windowId)

/-- `WindowMessenger.send_governance_review`
(src/src/utils/messaging.py:325): `window_d` only. -/
def sendGovernanceReview (windowId : Str) (reviewType : Str) (data : α)
    (pikaAvailable : Bool) (now : Str) (publishOk : Bool) (st : BusState α) :
    Bool × BusState α :=
  if windowId ≠ "window_d".toList then (false, st)
  else
    publishMessage pikaAvailable now publishOk st "governance.reviews".toList
      ("governance.".toList ++ reviewType) data (some windowId)

/-- `WindowMessenger.send_feature_insight`
(src/src/utils/messaging.py:338): `window_e` only. -/
def sendFeatureInsight (windowId : Str) (insightType : Str) (data : α)
    (pikaAvailable : Bool) (now : Str) (publishOk : Bool) (st : BusState α) :
    Bool × BusState α :=
  if windowId ≠ "window_e".toList then (false, st)
  else
    publishMessage pikaAvailable now publishOk st "feature.insights".toList
      ("feature.".toList ++ insightType) data (some windowId)

/-- `WindowMessenger.listen_for_protocol_updates`
(src/src/utils/messaging.py:351): windows A and B only; when connected
it declares and binds a role-scoped queue before subscribing. -/
def listenForProtocolUpdates (windowId : Str) (subOk : Bool) (st : BusState α) :
    Bool × BusState α :=
  if windowId ≠ "window_a".toList ∧ windowId ≠ "window_b".toList then (false, st)
  else
    let queue := windowId ++ "_protocol_updates".toList
    let st :=
      if st.isConnected then
        { st with boundQueues := st.boundQueues ++
            [(queue, "protocol.updates".toList, "protocol.*".toList)] }
      else st
    subscribeToQueue subOk st queue

/-- `WindowMessenger.listen_for_governance_feedback`
(src/src/utils/messaging.py:370): window C only. -/
def listenForGovernanceFeedback (windowId : Str) (subOk : Bool) (st : BusState α) :
    Bool × BusState α :=
  if windowId ≠ "window_c".toList then (false, st)
  else
    let queue := windowId ++ "_governance_feedback".toList
    let st :=
      if st.isConnected then
        { st with boundQueues := st.boundQueues ++
            [(queue, "governance.reviews".toList, "governance.*".toList)] }
      else st
    subscribeToQueue subOk st queue

/-- The two messenger implementations returned by `create_messenger`:
`WindowMessenger` over a live bus, or the `OfflineMessenger` fallback. -/
inductive Messenger where
  | window (windowId : Str)
  | offline (windowId : Str)
deriving DecidableEq

/-- `create_messenger` (src/src/utils/messaging.py:448-459).
`busConnected` is `none` when the `V5MessageBus` constructor raised
(the `except` branch), otherwise `some` of the resulting
`is_connected` flag. -/
def createMessenger (windowId : Str) (busConnected : Option Bool) : Messenger :=
  match busConnected with
  | none => .offline windowId
  | some c => if c then .window windowId else .offline windowId

/-- Send operations of a messenger, dispatched by duck typing in Python:
the offline variant (src/src/utils/messaging.py:413-436) logs locally,
touches no bus state, and returns `True` for every send.  `op` selects
among the five send methods by its type tag and exchange behaviour. -/
def messengerSendActivity (m : Messenger) (activityType : Str) (data : α)
    (pikaAvailable : Bool) (now : Str) (publishOk : Bool) (st : BusState α) :
    Bool × BusState α :=
  match m with
  | .window wid => sendActivity wid activityType data pikaAvailable now publishOk st
  | .offline _ => (true, st)

/-- Duck-typed `send_code_change`. -/
def messengerSendCodeChange (m : Messenger) (changeType : Str) (data : α)
    (pikaAvailable : Bool) (now : Str) (publishOk : Bool) (st : BusState α) :
    Bool × BusState α :=
  match m with
  | .window wid => sendCodeChange wid changeType data pikaAvailable now publishOk st
  | .offline _ => (true, st)

/-- Duck-typed `send_protocol_update`. -/
def messengerSendProtocolUpdate (m : Messenger) (updateType : Str) (data : α)
    (pikaAvailable : Bool) (now : Str) (publishOk : Bool) (st : BusState α) :
    Bool × BusState α :=
  match m with
  | .window wid => sendProtocolUpdate wid updateType data pikaAvailable now publishOk st
  | .offline _ => (true, st)

/-- Duck-typed `send_governance_review`. -/
def messengerSendGovernanceReview (m : Messenger) (reviewType : Str) (data : α)
    (pikaAvailable : Bool) (now : Str) (publishOk : Bool) (st : BusState α) :
    Bool × BusState α :=
  match m with
  | .window wid => sendGovernanceReview wid reviewType data pikaAvailable now publishOk st
  | .offline _ => (true, st)

/-- Duck-typed `send_feature_insight`. -/
def messengerSendFeatureInsight (m : Messenger) (insightType : Str) (data : α)
    (pikaAvailable : Bool) (now : Str) (publishOk : Bool) (st : BusState α) :
    Bool × BusState α :=
  match m with
  | .window wid => sendFeatureInsight wid insightType data pikaAvailable now publishOk st
  | .offline _ => (true, st)

/-- Duck-typed `listen_for_protocol_updates`; the offline variant
(src/src/utils/messaging.py:438-441) registers nothing and returns
`True`. -/
def messengerListenProtocolUpdates (m : Messenger) (subOk : Bool) (st : BusState α) :
    Bool × BusState α :=
  match m with
  | .window wid => listenForProtocolUpdates wid subOk st
  | .offline _ => (true, st)

/-- Duck-typed `listen_for_governance_feedback`; the offline variant
(src/src/utils/messaging.py:443-446) registers nothing and returns
`True`. -/
def messengerListenGovernanceFeedback (m : Messenger) (subOk : Bool) (st : BusState α) :
    Bool × BusState α :=
  match m with
  | .window wid => listenForGovernanceFeedback wid subOk st
  | .offline _ => (true, st)

/-- Log events emitted by the supervisor paths under scrutiny.  Each
constructor records the data interpolated into the corresponding
logger call of `v5_system.py` / `v5_tool.py`. -/
inductive LogEvent where
  | warnNoPidFile
  | infoStoppingSystem
  | infoStopped (windowId : Str) (pid : Nat)
  | warnFailedStop (windowId : Str) (pid : Nat)
  | infoSystemStopped
  | infoStoppingTool
  | warnMayBeStopped (windowId : Str) (pid : Nat)
  | infoKilledRemaining
  | infoForceKilled (n : Nat)
  | infoToolStopped
  | errorScriptMissing (windowId : Str)
  | infoLaunched (windowId : Str) (pid : Nat)
  | infoLaunchedCount (n : Nat)
deriving DecidableEq

/-- Whether a log event is emitted at warning severity. -/
def isWarnEvent : LogEvent → Bool
  | .warnNoPidFile => true
  | .warnFailedStop _ _ => true
  | .warnMayBeStopped _ _ => true
  | _ => false

/-- Signal-delivery attempts made through the OS (`subprocess.run` with
`kill`/`taskkill`), plus the grace delay and the pattern-based backup
sweeps.  `termSig` and `killSig` record the outcome reported by the OS
(whether the process was still signal-reachable) even where the source
discards it. -/
inductive SigEvent where
  | termSig (pid : Nat) (delivered : Bool)
  | killSig (pid : Nat) (delivered : Bool)
  | graceDelay
  | pkillPattern
  | tabCleanup
deriving DecidableEq

/-- Cross-process supervisor state: the persisted PID registry
(`.warp/communication/pids.json`; `none` when the file is absent), the
log, and the trace of signal attempts.  The registry, when present, is
assumed well-formed JSON (it is only ever written by `launch_windows`
via `json.dump`). -/
structure SupState where
  pidFile : Option (List (Str × Nat))
  log : List LogEvent
  sig : List SigEvent
deriving DecidableEq

/-- The fixed five-window table of `V5System.launch_windows`
(src/src/core/v5_system.py:290-296); scripts are keyed here by window
id, titles elided. -/
def windowTable : List Str :=
  ["window_a".toList, "window_b".toList, "window_c".toList,
   "window_d".toList, "window_e".toList]

/-- The launch loop of `V5System.launch_windows`
(src/src/core/v5_system.py:300-311): a window whose script is missing
is logged and skipped; `launch_window` (the OS spawn primitive) yields
`none` on failure — a falsy pid is not recorded. -/
def launchLoop (scriptExists : Str → Bool) (spawn : Str → Option Nat) :
    List Str → SupState → SupState × List (Str × Nat)
  | [], st => (st, [])
  | wid :: rest, st =>
    if scriptExists wid then
      match spawn wid with
      | some pid =>
        if pid ≠ 0 then
          let st := { st with log := st.log ++ [LogEvent.infoLaunched wid pid] }
          let p := launchLoop scriptExists spawn rest st
          (p.1, (wid, pid) :: p.2)
        else launchLoop scriptExists spawn rest st
      | none => launchLoop scriptExists spawn rest st
    else
      launchLoop scriptExists spawn rest
        { st with log := st.log ++ [LogEvent.errorScriptMissing wid] }

/-- `V5System.launch_windows` (src/src/core/v5_system.py:286-319): run
the launch loop over the five windows, then persist the role → PID map
(written even when empty). -/
def launchWindows (scriptExists : Str → Bool) (spawn : Str → Option Nat)
    (st : SupState) : SupState × List (Str × Nat) :=
  let p := launchLoop scriptExists spawn windowTable st
  ({ p.1 with pidFile := some p.2,
              log := p.1.log ++ [LogEvent.infoLaunchedCount p.2.length] }, p.2)

/-- The stop loop of `V5System.stop_tool`
(src/src/core/v5_system.py:383-391) on a POSIX platform: one plain
`kill` (SIGTERM) per recorded PID with `check=True`; a
`CalledProcessError` (process already gone) is logged as a warning and
the loop continues. -/
def systemStopLoop (termOk : Nat → Bool) : List (Str × Nat) → SupState → SupState
  | [], st => st
  | wp :: rest, st =>
    let st := { st with sig := st.sig ++ [SigEvent.termSig wp.2 (termOk wp.2)] }
    let st :=
      if termOk wp.2 then { st with log := st.log ++ [LogEvent.infoStopped wp.1 wp.2] }
      else { st with log := st.log ++ [LogEvent.warnFailedStop wp.1 wp.2] }
    systemStopLoop termOk rest st

/-- `V5System.stop_tool` (src/src/core/v5_system.py:370-395): with no
registry file it logs a warning and returns; otherwise it signals every
recorded PID and unconditionally deletes the registry file. -/
def systemStopTool (termOk : Nat → Bool) (st : SupState) : SupState :=
  match st.pidFile with
  | none => { st with log := st.log ++ [LogEvent.warnNoPidFile] }
  | some pids =>
    let st := { st with log := st.log ++ [LogEvent.infoStoppingSystem] }
    let st := systemStopLoop termOk pids st
    { st with pidFile := none, log := st.log ++ [LogEvent.infoSystemStopped] }

/-- The `status` command of `v5_system.py` / `v5_tool.py`
(src/src/core/v5_system.py:445-455): the tool reports as running
exactly when the registry file exists; PIDs are not liveness-checked. -/
def statusRunning (st : SupState) : Bool := st.pidFile.isSome

/-- The method-1 loop of `V5Tool.force_kill_v5_processes`
(src/src/core/v5_tool.py:741-756) on a POSIX platform.  Per recorded
PID: `kill -TERM` with `check=True`; on success `sleep 0.5` then
`kill -KILL` with its outcome captured and discarded (`killOk`); a
`CalledProcessError` from the TERM is logged as a warning and the loop
continues with the remaining PIDs. -/
def toolStopLoop (termOk killOk : Nat → Bool) : List (Str × Nat) → SupState → SupState
  | [], st => st
  | wp :: rest, st =>
    let st := { st with sig := st.sig ++ [SigEvent.termSig wp.2 (termOk wp.2)] }
    let st :=
      if termOk wp.2 then
        { st with sig := st.sig ++ [SigEvent.graceDelay, SigEvent.killSig wp.2 (killOk wp.2)],
                  log := st.log ++ [LogEvent.infoStopped wp.1 wp.2] }
      else { st with log := st.log ++ [LogEvent.warnMayBeStopped wp.1 wp.2] }
    toolStopLoop termOk killOk rest st

/-- `V5Tool.force_kill_v5_processes` (src/src/core/v5_tool.py:732-782)
on a POSIX platform.  Method 1 runs the per-PID stop loop when the
registry file exists; method 2 is the `pkill -f window_[abcde].py`
backup (`pkillOk` false models its timeout, which skips the info log);
method 3 force-kills any `pgrep`-reported stray PIDs.  All failures are
swallowed inside the method, never raised. -/
def forceKillV5Processes (termOk killOk : Nat → Bool) (pkillOk : Bool)
    (pgrepPids : List Nat) (st : SupState) : SupState :=
  let st :=
    match st.pidFile with
    | none => st
    | some pids => toolStopLoop termOk killOk pids st
  let st :=
    if pkillOk then
      { st with sig := st.sig ++ [SigEvent.pkillPattern], log := st.log ++ [LogEvent.infoKilledRemaining] }
    else { st with sig := st.sig ++ [SigEvent.pkillPattern] }
  if pgrepPids.isEmpty then st
  else
    { st with sig := st.sig ++ pgrepPids.map (fun p => SigEvent.killSig p true),
              log := st.log ++ [LogEvent.infoForceKilled pgrepPids.length] }

/-- `V5Tool.stop_tool` (src/src/core/v5_tool.py:715-730): force-kill,
then the Warp tab cleanup (terminal-GUI automation, an external
collaborator excluded from the core spec — modelled as one opaque
action), then delete the registry file if it exists. -/
def toolStopTool (termOk killOk : Nat → Bool) (pkillOk : Bool)
    (pgrepPids : List Nat) (st : SupState) : SupState :=
  let st := { st with log := st.log ++ [LogEvent.infoStoppingTool] }
  let st := forceKillV5Processes termOk killOk pkillOk pgrepPids st
  let st := { st with sig := st.sig ++ [SigEvent.tabCleanup] }
  let st := if st.pidFile.isSome then { st with pidFile := none } else st
  { st with log := st.log ++ [LogEvent.infoToolStopped] }

/-- The forceful-kill attempts recorded in a signal trace, with the
delivery outcome the OS reported for each. -/
def killsOf : List SigEvent → List (Nat × Bool)
  | [] => []
  | .killSig p b :: rest => (p, b) :: killsOf rest
  | _ :: rest => killsOf rest

/-- Pure signal trace of the method-1 stop loop of
`force_kill_v5_processes` over a PID list (specification helper). -/
def m1Sig (termOk killOk : Nat → Bool) : List (Str × Nat) → List SigEvent
  | [] => []
  | wp :: rest =>
    (if termOk wp.2 then
      [SigEvent.termSig wp.2 true, SigEvent.graceDelay, SigEvent.killSig wp.2 (killOk wp.2)]
     else [SigEvent.termSig wp.2 false]) ++ m1Sig termOk killOk rest

/-- Pure log trace of the method-1 stop loop of
`force_kill_v5_processes` over a PID list (specification helper). -/
def m1Log (termOk : Nat → Bool) : List (Str × Nat) → List LogEvent
  | [] => []
  | wp :: rest =>
    (if termOk wp.2 then [LogEvent.infoStopped wp.1 wp.2]
     else [LogEvent.warnMayBeStopped wp.1 wp.2]) ++ m1Log termOk rest

theorem occursIn_eq_true {w s : Str} : occursIn w s = true ↔ w <:+: s := by
  unfold occursIn
  rw [List.any_eq_true, List.infix_iff_prefix_suffix]
  constructor
  · rintro ⟨t, ht, hp⟩
    exact ⟨t, List.isPrefixOf_iff_prefix.mp hp, (List.mem_tails t s).mp ht⟩
  · rintro ⟨t, hp, hs⟩
    exact ⟨t, (List.mem_tails t s).mpr hs, List.isPrefixOf_iff_prefix.mpr hp⟩

theorem mem_wordRunsAux_isInfix (w : Str) :
    ∀ (l cur : Str), w ∈ wordRunsAux cur l → w <:+: cur.reverse ++ l := by
  intro l
  induction l with
  | nil =>
    intro cur h
    simp only [wordRunsAux] at h
    split at h
    · simp at h
    · simp only [List.mem_singleton] at h
      subst h
      simp [List.infix_refl]
  | cons c rest ih =>
    intro cur h
    simp only [wordRunsAux] at h
    split at h
    · have := ih (c :: cur) h
      simpa [List.append_assoc] using this
    · split at h
      · rename_i hcur
        have := ih [] h
        simp only [List.reverse_nil, List.nil_append] at this
        rw [hcur]
        simpa using this.trans (List.suffix_cons c rest).isInfix
      · rcases List.mem_cons.mp h with h1 | h2
        · subst h1
          exact (List.prefix_append _ _).isInfix
        · have := ih [] h2
          simp only [List.reverse_nil, List.nil_append] at this
          exact this.trans
            ((List.suffix_cons c rest).trans (List.suffix_append cur.reverse (c :: rest))).isInfix

theorem occursIn_of_mem_extractTokens {w s : Str} (h : w ∈ extractTokens s) :
    occursIn w s = true := by
  have hw : w ∈ wordRuns s := List.mem_of_mem_filter h
  have := mem_wordRunsAux_isInfix w s [] hw
  simp only [List.reverse_nil, List.nil_append] at this
  exact occursIn_eq_true.mpr this

theorem systemStopLoop_pidFile (termOk : Nat → Bool) :
    ∀ (pids : List (Str × Nat)) (st : SupState),
      (systemStopLoop termOk pids st).pidFile = st.pidFile := by
  intro pids
  induction pids with
  | nil => intro st; rfl
  | cons wp rest ih =>
    intro st
    simp only [systemStopLoop]
    split <;> rw [ih]

theorem toolStopLoop_eq (termOk killOk : Nat → Bool) :
    ∀ (pids : List (Str × Nat)) (st : SupState),
      toolStopLoop termOk killOk pids st =
        ⟨st.pidFile, st.log ++ m1Log termOk pids, st.sig ++ m1Sig termOk killOk pids⟩ := by
  intro pids
  induction pids with
  | nil => intro st; simp [toolStopLoop, m1Log, m1Sig]
  | cons wp rest ih =>
    intro st
    simp only [toolStopLoop, m1Log, m1Sig]
    by_cases h : termOk wp.2 = true
    · simp [h, ih, List.append_assoc]
    · simp [h, ih, List.append_assoc]

theorem killsOf_append (a b : List SigEvent) :
    killsOf (a ++ b) = killsOf a ++ killsOf b := by
  induction a with
  | nil => rfl
  | cons e rest ih => cases e <;> simp [killsOf, ih]

theorem killsOf_m1Sig (termOk killOk : Nat → Bool) (pids : List (Str × Nat)) :
    killsOf (m1Sig termOk killOk pids) =
      (pids.filter (fun wp => termOk wp.2)).map (fun wp => (wp.2, killOk wp.2)) := by
  induction pids with
  | nil => rfl
  | cons wp rest ih =>
    simp only [m1Sig, List.filter_cons]
    by_cases h : termOk wp.2 = true
    · rw [if_pos h, killsOf_append]
      simp [killsOf, h, ih]
    · rw [if_neg h, killsOf_append]
      simp [killsOf, h, ih]

theorem termSig_mem_m1Sig (termOk killOk : Nat → Bool) (pids : List (Str × Nat))
    (wp : Str × Nat) (h : wp ∈ pids) :
    SigEvent.termSig wp.2 (termOk wp.2) ∈ m1Sig termOk killOk pids := by
  induction pids with
  | nil => cases h
  | cons q rest ih =>
    rcases List.mem_cons.mp h with h1 | h2
    · subst h1
      simp only [m1Sig, List.mem_append]
      left
      by_cases hq : termOk wp.2 = true
      · rw [if_pos hq, hq]; simp
      · rw [if_neg hq]
        simp only [Bool.not_eq_true] at hq
        rw [hq]; simp
    · simp only [m1Sig, List.mem_append]
      exact Or.inr (ih h2)

theorem warn_mem_m1Log (termOk : Nat → Bool) (pids : List (Str × Nat))
    (wp : Str × Nat) (h : wp ∈ pids) (hf : termOk wp.2 = false) :
    LogEvent.warnMayBeStopped wp.1 wp.2 ∈ m1Log termOk pids := by
  induction pids with
  | nil => cases h
  | cons q rest ih =>
    rcases List.mem_cons.mp h with h1 | h2
    · subst h1
      simp only [m1Log, List.mem_append]
      left
      rw [if_neg (by simp [hf])]
      simp
    · simp only [m1Log, List.mem_append]
      exact Or.inr (ih h2)

theorem forceKill_sig_of_pids (termOk killOk : Nat → Bool) (pkillOk : Bool)
    (pids : List (Str × Nat)) (lg : List LogEvent) :
    (forceKillV5Processes termOk killOk pkillOk [] ⟨some pids, lg, []⟩).sig =
      m1Sig termOk killOk pids ++ [SigEvent.pkillPattern] := by
  simp only [forceKillV5Processes, toolStopLoop_eq]
  by_cases h : pkillOk = true
  · rw [if_pos h]; simp [List.isEmpty]
  · rw [if_neg h]; simp [List.isEmpty]

theorem forceKill_log_of_pids (termOk killOk : Nat → Bool) (pkillOk : Bool)
    (pids : List (Str × Nat)) (lg : List LogEvent) (e : LogEvent)
    (h : e ∈ m1Log termOk pids) :
    e ∈ (forceKillV5Processes termOk killOk pkillOk [] ⟨some pids, lg, []⟩).log := by
  simp only [forceKillV5Processes, toolStopLoop_eq]
  by_cases hp : pkillOk = true
  · rw [if_pos hp]; simp [List.isEmpty, h]
  · rw [if_neg hp]; simp [List.isEmpty, h]

theorem forceKill_pidFile (termOk killOk : Nat → Bool) (pkillOk : Bool)
    (pgrepPids : List Nat) (st : SupState) :
    (forceKillV5Processes termOk killOk pkillOk pgrepPids st).pidFile = st.pidFile := by
  simp only [forceKillV5Processes]
  cases hf : st.pidFile with
  | none =>
    split <;> split <;> simp [hf]
  | some pids =>
    split <;> split <;> simp [toolStopLoop_eq, hf]

theorem toolStopTool_pidFile (termOk killOk : Nat → Bool) (pkillOk : Bool)
    (pgrepPids : List Nat) (st : SupState) :
    (toolStopTool termOk killOk pkillOk pgrepPids st).pidFile = none := by
  simp only [toolStopTool]
  split
  · rfl
  · rename_i hs
    simpa using Option.not_isSome_iff_eq_none.mp hs

theorem systemStopTool_pidFile (termOk : Nat → Bool) (st : SupState) :
    (systemStopTool termOk st).pidFile = none := by
  simp only [systemStopTool]
  cases hf : st.pidFile with
  | none => simp [hf]
  | some pids => simp

/-- C1: for every parsed goal whose `scope.excluded` is non-empty and
every request text sharing a token with it, `validate_goal_alignment`
returns exactly `aligned = false` and `confidence = 0.9` with the
excluded-scope reason, overriding the keyword-overlap path regardless
of how many keywords of the goal the request matches. -/
theorem C1_excluded_scope_overrides (g : RepositoryGoal) (req t : Str)
    (hne : scopeExcluded g ≠ [])
    (ht1 : t ∈ extractKeywords (pyLower req))
    (ht2 : t ∈ extractTokens (pyLower (scopeExcluded g))) :
    validateGoalAlignment (some g) req =
      ⟨false, 9/10, Reason.excludedScope (pyLower (scopeExcluded g)), none⟩ := by
  have hocc : occursIn t (pyLower (scopeExcluded g)) = true :=
    occursIn_of_mem_extractTokens ht2
  have h1 : pyLower (scopeExcluded g) ≠ [] := by
    intro hc
    exact hne (List.map_eq_nil_iff.mp hc)
  have h2 : (extractKeywords (pyLower req)).any
      (fun w => occursIn w (pyLower (scopeExcluded g))) = true :=
    List.any_eq_true.mpr ⟨t, ht1, hocc⟩
  simp only [validateGoalAlignment, validateCore]
  rw [if_pos ⟨h1, h2⟩]

/-- C1 witness: the goal excludes "testing deployment tasks" and the
request shares the token "deployment" with it, so the check reports the
excluded-scope result even though the request matches no goal keyword
at all. -/
theorem C1_excluded_scope_overrides_witness :
    validateGoalAlignment
      (some ⟨"Build fast application".toList, [], [], [], [],
             [("excluded".toList, "testing deployment tasks".toList)], []⟩)
      "please handle deployment now".toList =
      ⟨false, 9/10,
       Reason.excludedScope (pyLower "testing deployment tasks".toList), none⟩ :=
  C1_excluded_scope_overrides _ _ "deployment".toList
    (by decide) (by decide) (by decide)

/-- C2 counterexample: a goal with empty `scope.excluded` and the
non-empty keyword set {build, fast, application}, checked against the
disjoint request "zzzz", yields confidence 0 and `aligned = false` —
not the confidence 0.5 and `aligned = true` the claim asserts (the
neutral 0.5 only applies when the goal's keyword set is empty). -/
theorem C2_neutral_default_counterexample :
    scopeExcluded ⟨"Build fast application".toList, [], [], [], [], [], []⟩ = [] ∧
    validateGoalAlignment
      (some ⟨"Build fast application".toList, [], [], [], [], [], []⟩)
      "zzzz".toList = ⟨false, 0, Reason.keywordMatch 0 3, some []⟩ := by
  constructor
  · rfl
  · have key : validateGoalAlignment
        (some ⟨"Build fast application".toList, [], [], [], [], [], []⟩)
        "zzzz".toList =
        ⟨decide ((3 : ℚ)/10 < ((0 : Nat) : ℚ)/((3 : Nat) : ℚ)),
         ((0 : Nat) : ℚ)/((3 : Nat) : ℚ), Reason.keywordMatch 0 3, some []⟩ := rfl
    rw [key]
    simp only [AlignmentResult.mk.injEq, decide_eq_false_iff_not]
    norm_num

/-- C2 amended: for every parsed goal with empty `scope.excluded` whose
focus keyword set is empty (so every request is trivially disjoint from
it), `validate_goal_alignment` returns confidence 0.5 and
`aligned = true`; with a non-empty keyword set a disjoint request
instead gets confidence 0 and `aligned = false`, as the counterexample
shows. -/
theorem C2_neutral_default_amended (g : RepositoryGoal) (req : Str)
    (hexc : scopeExcluded g = [])
    (hkw : getFocusKeywords g = []) :
    validateGoalAlignment (some g) req =
      ⟨true, 1/2, Reason.keywordMatch 0 0, some []⟩ := by
  have hkw' : focusKeywordsCore g.primary (g.constraints.map Prod.snd) = [] := hkw
  simp only [validateGoalAlignment, validateCore, hkw', hexc, pyLower,
             List.map_nil, List.filter_nil, List.length_nil]
  norm_num

/-- C2 amended witness: a goal with empty primary and no constraints
has an empty keyword set; any request gets the neutral result. -/
theorem C2_neutral_default_amended_witness :
    validateGoalAlignment (some ⟨[], [], [], [], [], [], []⟩)
      "anything at all".toList =
      ⟨true, 1/2, Reason.keywordMatch 0 0, some []⟩ :=
  C2_neutral_default_amended _ _ rfl rfl

/-- C3 counterexample: the goal text "foo: bar" parses to a truthy
mapping without a `goal` key, and `parse` returns a `RepositoryGoal`
whose `primary` is the empty string — it performs no emptiness check on
`primary`. -/
theorem C3_parse_counterexample :
    (parseGoal (some "foo: bar".toList)).map ParsedGoal.primary =
      some (YamlVal.s []) := rfl

/-- C3 amended: `parse` returns null when the file is missing, when the
parse raises, or when the parsed mapping is falsy (empty); but it does
not validate `primary`, so a successful parse may return a goal whose
`primary` is the empty string. -/
theorem C3_parse_none_amended (c : Str) :
    parseGoal none = none ∧
    (manualYamlParse (cleanLines (splitCh '\n' c)) = none → parseGoal (some c) = none) ∧
    (manualYamlParse (cleanLines (splitCh '\n' c)) = some [] → parseGoal (some c) = none) := by
  refine ⟨rfl, fun h => ?_, fun h => ?_⟩
  · simp [parseGoal, h]
  · simp [parseGoal, h]

/-- C3 amended witness: the empty goal file parses to the empty mapping
and `parse` returns null. -/
theorem C3_parse_none_amended_witness :
    parseGoal (some "".toList) = none :=
  (C3_parse_none_amended "".toList).2.2 rfl

/-- C10: when no goal is available to check against, the alignment gate
passes every request with `aligned = true` and confidence 0.0 — both in
`validate_goal_alignment` (unset `parsed_goal`) and in
`check_request_alignment` (parse returned no goal). -/
theorem C10_no_goal_passes (content : Option Str) (req : Str)
    (h : parseGoal content = none) :
    validateGoalAlignment none req = ⟨true, 0, Reason.noGoalDefined, none⟩ ∧
    checkRequestAlignment content req = some ⟨true, 0, Reason.noGoalToCheck, none⟩ :=
  ⟨rfl, by simp [checkRequestAlignment, h]⟩

/-- C10 witness: with a missing goal file the request passes. -/
theorem C10_no_goal_passes_witness :
    validateGoalAlignment none "add feature".toList =
      ⟨true, 0, Reason.noGoalDefined, none⟩ ∧
    checkRequestAlignment none "add feature".toList =
      some ⟨true, 0, Reason.noGoalToCheck, none⟩ :=
  C10_no_goal_passes none "add feature".toList rfl

/-- C4: for every window id that is not the designated publisher of a
privileged exchange (protocol updates: window_c; governance reviews:
window_d; feature insights: window_e), the corresponding send operation
returns `false` and the bus state is unchanged — no message is
published, even over a connected bus. -/
theorem C4_role_permission_guard {α : Type} (wid t : Str) (d : α)
    (pika : Bool) (now : Str) (pubOk : Bool) (st : BusState α) :
    (wid ≠ "window_c".toList → sendProtocolUpdate wid t d pika now pubOk st = (false, st)) ∧
    (wid ≠ "window_d".toList → sendGovernanceReview wid t d pika now pubOk st = (false, st)) ∧
    (wid ≠ "window_e".toList → sendFeatureInsight wid t d pika now pubOk st = (false, st)) := by
  refine ⟨fun h => ?_, fun h => ?_, fun h => ?_⟩
  · simp only [sendProtocolUpdate]
    rw [if_pos h]
  · simp only [sendGovernanceReview]
    rw [if_pos h]
  · simp only [sendFeatureInsight]
    rw [if_pos h]

/-- C4 witness: window_a publishing a protocol update over a connected
bus is rejected with `false` and the bus receives nothing. -/
theorem C4_role_permission_guard_witness :
    sendProtocolUpdate "window_a".toList "change".toList (0 : Nat) true [] true
      ⟨true, true, [], [], []⟩ = (false, ⟨true, true, [], [], []⟩) :=
  (C4_role_permission_guard "window_a".toList "change".toList 0 true [] true
    ⟨true, true, [], [], []⟩).1 (by decide)

/-- C5: a publish over a disconnected bus returns `false` without
raising and leaves the state unchanged (the message is dropped, never
queued); over a connected bus with a working broker the payload is
wrapped in an envelope carrying the current timestamp, the source
window id and the routing key, and exactly that envelope is appended to
the published stream. -/
theorem C5_publish_envelope_contract {α : Type} (pika : Bool) (now : Str)
    (pubOk : Bool) (st : BusState α) (ex rk : Str) (msg : α) (wid : Option Str) :
    (¬(st.isConnected = true ∧ st.hasChannel = true) →
        publishMessage pika now pubOk st ex rk msg wid = (false, st)) ∧
    (st.isConnected = true → st.hasChannel = true → pika = true → pubOk = true →
        publishMessage pika now pubOk st ex rk msg wid =
          (true, { st with published := st.published ++ [(ex, ⟨now, wid, rk, msg⟩)] })) := by
  constructor
  · intro h
    simp only [publishMessage]
    rw [if_pos]
    simpa using h
  · intro h1 h2 h3 h4
    simp [publishMessage, h1, h2, h3, h4]

/-- C5 witness: over a disconnected bus the publish is dropped with
`false`; over a connected one the enriched envelope is appended. -/
theorem C5_publish_envelope_contract_witness :
    publishMessage true "t0".toList true (⟨false, false, [], [], []⟩ : BusState Nat)
      "code.changes".toList "k".toList 7 (some "window_a".toList) =
      (false, ⟨false, false, [], [], []⟩) ∧
    publishMessage true "t0".toList true (⟨true, true, [], [], []⟩ : BusState Nat)
      "code.changes".toList "k".toList 7 (some "window_a".toList) =
      (true, ⟨true, true,
        [("code.changes".toList, ⟨"t0".toList, some "window_a".toList, "k".toList, 7⟩)],
        [], []⟩) :=
  ⟨(C5_publish_envelope_contract true "t0".toList true _ _ _ 7 _).1 (by simp),
   (C5_publish_envelope_contract true "t0".toList true _ _ _ 7 _).2 rfl rfl rfl rfl⟩

/-- C6 counterexample: a delivered message whose body fails
`json.loads` never reaches the registered handler (zero invocations,
against the claimed exactly-once invocation); it is negatively
acknowledged without requeue. -/
theorem C6_handler_skip_counterexample :
    @messageHandler Nat none true = (0, AckAction.nack false) := rfl

/-- C6 amended: for every delivered message whose body parses as JSON,
the registered handler is invoked exactly once; handler success
acknowledges the message and a handler exception negatively
acknowledges it with `requeue = False`, so a poisoned message is
dropped rather than redelivered.  A message whose body does not parse
is likewise nacked without requeue, with the handler never invoked. -/
theorem C6_handler_ack_amended (α : Type) (a : α) (cbOk : Bool) :
    messageHandler (some a) true = (1, AckAction.ack) ∧
    messageHandler (some a) false = (1, AckAction.nack false) ∧
    messageHandler (none : Option α) cbOk = (0, AckAction.nack false) :=
  ⟨rfl, rfl, rfl⟩

/-- C9: whenever the bus constructor raises or the bus comes up
disconnected, the factory returns the offline messenger, on which every
send operation returns `true` while touching no bus state and every
listen operation is inert (registers nothing, returns `true`) — the
same call surface as the live messenger, so call sites never branch on
connectivity. -/
theorem C9_offline_fallback (α : Type) (wid t : Str) (d : α) (pika : Bool)
    (now : Str) (pubOk subOk : Bool) (st : BusState α) (busConnected : Option Bool)
    (h : busConnected = none ∨ busConnected = some false) :
    createMessenger wid busConnected = .offline wid ∧
    messengerSendActivity (.offline wid) t d pika now pubOk st = (true, st) ∧
    messengerSendCodeChange (.offline wid) t d pika now pubOk st = (true, st) ∧
    messengerSendProtocolUpdate (.offline wid) t d pika now pubOk st = (true, st) ∧
    messengerSendGovernanceReview (.offline wid) t d pika now pubOk st = (true, st) ∧
    messengerSendFeatureInsight (.offline wid) t d pika now pubOk st = (true, st) ∧
    messengerListenProtocolUpdates (.offline wid) subOk st = (true, st) ∧
    messengerListenGovernanceFeedback (.offline wid) subOk st = (true, st) := by
  refine ⟨?_, rfl, rfl, rfl, rfl, rfl, rfl, rfl⟩
  rcases h with h | h <;> simp [createMessenger, h]

/-- C9 witness: a raising constructor yields the offline messenger and
its operations all succeed without touching the bus state. -/
theorem C9_offline_fallback_witness :
    createMessenger "window_b".toList none = .offline "window_b".toList ∧
    messengerSendActivity (.offline "window_b".toList) "boot".toList (5 : Nat)
      true "t1".toList true ⟨false, false, [], [], []⟩ =
      (true, ⟨false, false, [], [], []⟩) :=
  ⟨(C9_offline_fallback Nat "window_b".toList "boot".toList 5 true "t1".toList
      true true ⟨false, false, [], [], []⟩ none (Or.inl rfl)).1,
   (C9_offline_fallback Nat "window_b".toList "boot".toList 5 true "t1".toList
      true true ⟨false, false, [], [], []⟩ none (Or.inl rfl)).2.1⟩

/-- C7 counterexample: a `V5Tool.stop_tool` call made when no registry
file exists runs to completion without logging any warning — the
claimed no-registry warning is only emitted by `V5System.stop_tool`,
not by this implementation of stopAll. -/
theorem C7_second_stop_no_warning_counterexample :
    ((toolStopTool (fun _ => true) (fun _ => true) true []
      ⟨none, [], []⟩).log.filter (fun e => isWarnEvent e)) = [] := rfl

/-- C7 amended: launchAll immediately followed by stopAll leaves the
PID registry file absent, so status reports not running, and stopAll
always clears the registry; a second stopAll call made when no registry
exists returns without error and leaves the registry absent —
`V5System.stop_tool` short-circuits, logging exactly the no-PID-file
warning, while `V5Tool.stop_tool` proceeds without that warning. -/
theorem C7_lifecycle_idempotence (scriptExists : Str → Bool)
    (spawn : Str → Option Nat) (termOk killOk : Nat → Bool) (pkillOk : Bool)
    (pgrepPids : List Nat) (st st' : SupState) (h : st'.pidFile = none) :
    (systemStopTool termOk (launchWindows scriptExists spawn st).1).pidFile = none ∧
    statusRunning (systemStopTool termOk (launchWindows scriptExists spawn st).1) = false ∧
    systemStopTool termOk st' = { st' with log := st'.log ++ [LogEvent.warnNoPidFile] } ∧
    (toolStopTool termOk killOk pkillOk pgrepPids st').pidFile = none := by
  refine ⟨systemStopTool_pidFile _ _, ?_, ?_, toolStopTool_pidFile _ _ _ _ _⟩
  · unfold statusRunning
    rw [systemStopTool_pidFile]
    rfl
  · obtain ⟨pf, lg, sg⟩ := st'
    change pf = none at h
    subst h
    rfl

/-- C7 witness: a stop with no registry present logs the warning and
returns, leaving the state otherwise untouched. -/
theorem C7_lifecycle_idempotence_witness :
    systemStopTool (fun _ => true) ⟨none, [], []⟩ =
      ⟨none, [LogEvent.warnNoPidFile], []⟩ :=
  (C7_lifecycle_idempotence (fun _ => true) (fun _ => some 5) (fun _ => true)
    (fun _ => true) true [] ⟨none, [], []⟩ ⟨none, [], []⟩ rfl).2.2.1

/-- C8 counterexample: with one recorded PID whose TERM succeeds but
which is no longer signal-reachable once the grace delay elapses, the
stop path still issues the forceful kill — `kill -KILL` is run
unconditionally with its result captured and discarded — so the trace
records a kill attempt whose OS outcome is "not delivered",
contradicting "a forceful kill only to PIDs still signal-reachable". -/
theorem C8_kill_unreachable_counterexample :
    SigEvent.killSig 101 false ∈
      (forceKillV5Processes (fun _ => true) (fun _ => false) true []
        ⟨some [("window_a".toList, 101)], [], []⟩).sig := by decide

/-- C8 amended: `force_kill_v5_processes` runs TERM / grace delay /
KILL per recorded PID rather than in two global phases: every recorded
PID receives a TERM attempt; every PID whose TERM succeeded — and only
those — then receives a forceful kill unconditionally after the grace
delay, with the kill outcome ignored; a TERM failure (process already
gone) is caught, logged as a warning, and never aborts the remaining
stops. -/
theorem C8_two_phase_stop_amended (termOk killOk : Nat → Bool) (pkillOk : Bool)
    (pids : List (Str × Nat)) (lg : List LogEvent) (wp : Str × Nat)
    (hmem : wp ∈ pids) :
    SigEvent.termSig wp.2 (termOk wp.2) ∈
      (forceKillV5Processes termOk killOk pkillOk [] ⟨some pids, lg, []⟩).sig ∧
    killsOf (forceKillV5Processes termOk killOk pkillOk [] ⟨some pids, lg, []⟩).sig =
      (pids.filter (fun q => termOk q.2)).map (fun q => (q.2, killOk q.2)) ∧
    (termOk wp.2 = false →
      LogEvent.warnMayBeStopped wp.1 wp.2 ∈
        (forceKillV5Processes termOk killOk pkillOk [] ⟨some pids, lg, []⟩).log) := by
  refine ⟨?_, ?_, fun hf => ?_⟩
  · rw [forceKill_sig_of_pids]
    exact List.mem_append.mpr (Or.inl (termSig_mem_m1Sig _ _ _ _ hmem))
  · rw [forceKill_sig_of_pids, killsOf_append, killsOf_m1Sig]
    simp [killsOf]
  · exact forceKill_log_of_pids _ _ _ _ _ _ (warn_mem_m1Log _ _ _ hmem hf)

/-- C8 amended witness: two recorded PIDs where only 101 is still
reachable at TERM time: 101 gets the unconditional kill (whose own
outcome is ignored), 102 only gets the failed TERM plus a warning. -/
theorem C8_two_phase_stop_amended_witness :
    killsOf (forceKillV5Processes (fun p => p == 101) (fun _ => false) true []
      ⟨some [("window_a".toList, 101), ("window_b".toList, 102)], [], []⟩).sig =
      [(101, false)] ∧
    LogEvent.warnMayBeStopped "window_b".toList 102 ∈
      (forceKillV5Processes (fun p => p == 101) (fun _ => false) true []
        ⟨some [("window_a".toList, 101), ("window_b".toList, 102)], [], []⟩).log := by
  constructor
  · have h := (C8_two_phase_stop_amended (fun p => p == 101) (fun _ => false) true
      [("window_a".toList, 101), ("window_b".toList, 102)] [] ("window_a".toList, 101)
      (by decide)).2.1
    rw [h]
    decide
  · exact (C8_two_phase_stop_amended (fun p => p == 101) (fun _ => false) true
      [("window_a".toList, 101), ("window_b".toList, 102)] [] ("window_b".toList, 102)
      (by decide)).2.2 (by decide)
